import Mathlib

/-!
Shallow embedding of `app.py`, a two-pipeline Streamlit dashboard:
a debt-service pipeline (filter by indicator code, sort by `refPeriod`,
range-filter by a user-chosen year interval) and a hepatitis pipeline
(regex-extract an `MM-YYYY` token from `refPeriod`, parse it to a date,
drop unparseable rows, aggregate case counts by `(Date, Year)`, filter by
a user-selected set of years, optionally re-aggregate by year).
Dataframes are modelled as lists of records, pandas boolean-mask filtering
as `List.filter` (order preserving), `sort_values` as a sort producing an
ascending permutation, and `groupby(...).sum().reset_index()` as a map over
the sorted deduplicated key list, summing the matching values.
-/

namespace Dashboard

/-- A calendar month, the result of parsing an `MM-YYYY` token
(`pd.to_datetime(..., format="%m-%Y")` yields the first day of that month;
the day component is constant so it is omitted). -/
structure Date where
  year : Nat
  month : Nat
deriving DecidableEq, Repr

/-- Strict chronological order on months (lexicographic on year, month). -/
def dateLT (a b : Date) : Prop :=
  a.year < b.year ∨ (a.year = b.year ∧ a.month < b.month)

instance (a b : Date) : Decidable (dateLT a b) := by
  unfold dateLT; exact inferInstance

/-- Chronological order on months. -/
def dateLE (a b : Date) : Prop := dateLT a b ∨ a = b

instance (a b : Date) : Decidable (dateLE a b) := by
  unfold dateLE; exact inferInstance

/-- Lexicographic comparison of character lists by code point: the order in
which Python (and hence pandas `sorted` / `groupby(sort=True)`) compares
strings. -/
def charListLE : List Char → List Char → Bool
  | [], _ => true
  | _ :: _, [] => false
  | a :: as, b :: bs =>
    if a < b then true else if b < a then false else charListLE as bs

/-- Lexicographic order on strings by code point. -/
def strLE (a b : String) : Prop := charListLE a.data b.data = true

instance (a b : String) : Decidable (strLE a b) := by
  unfold strLE; exact inferInstance

theorem charListLE_refl : ∀ l, charListLE l l = true
  | [] => rfl
  | a :: as => by simp [charListLE, charListLE_refl as]

theorem charListLE_total :
    ∀ l1 l2, charListLE l1 l2 = true ∨ charListLE l2 l1 = true
  | [], _ => Or.inl rfl
  | _ :: _, [] => Or.inr rfl
  | a :: as, b :: bs => by
    rcases lt_trichotomy a b with h | h | h
    · left; simp [charListLE, h]
    · subst h
      rcases charListLE_total as bs with ih | ih
      · left; simp [charListLE, ih]
      · right; simp [charListLE, ih]
    · right; simp [charListLE, h]

theorem charListLE_trans :
    ∀ l1 l2 l3, charListLE l1 l2 = true → charListLE l2 l3 = true →
      charListLE l1 l3 = true
  | [], _, _ => fun _ _ => rfl
  | _ :: _, [], _ => fun h1 _ => by simp [charListLE] at h1
  | _ :: _, _ :: _, [] => fun _ h2 => by simp [charListLE] at h2
  | a :: as, b :: bs, c :: cs => fun h1 h2 => by
    by_cases hab : a < b
    · by_cases hbc : b < c
      · simp [charListLE, lt_trans hab hbc]
      · by_cases hcb : c < b
        · simp [charListLE, hbc, hcb] at h2
        · have hbc2 : b = c := le_antisymm (not_lt.mp hcb) (not_lt.mp hbc)
          subst hbc2
          simp [charListLE, hab]
    · by_cases hba : b < a
      · simp [charListLE, hab, hba] at h1
      · have hab2 : a = b := le_antisymm (not_lt.mp hba) (not_lt.mp hab)
        subst hab2
        simp only [charListLE, lt_irrefl, if_false] at h1
        by_cases hac : a < c
        · simp [charListLE, hac]
        · by_cases hca : c < a
          · simp [charListLE, hac, hca] at h2
          · have hac2 : a = c := le_antisymm (not_lt.mp hca) (not_lt.mp hac)
            subst hac2
            simp only [charListLE, lt_irrefl, if_false] at h2 ⊢
            exact charListLE_trans as bs cs h1 h2

theorem charListLE_antisymm :
    ∀ l1 l2, charListLE l1 l2 = true → charListLE l2 l1 = true → l1 = l2
  | [], [] => fun _ _ => rfl
  | [], _ :: _ => fun _ h2 => by simp [charListLE] at h2
  | _ :: _, [] => fun h1 _ => by simp [charListLE] at h1
  | a :: as, b :: bs => fun h1 h2 => by
    by_cases hab : a < b
    · have hba : ¬b < a := asymm hab
      simp [charListLE, hab, hba] at h2
    · by_cases hba : b < a
      · simp [charListLE, hab, hba] at h1
      · have hab2 : a = b := le_antisymm (not_lt.mp hba) (not_lt.mp hab)
        subst hab2
        simp only [charListLE, lt_irrefl, if_false] at h1 h2
        rw [charListLE_antisymm as bs h1 h2]

instance : IsTrans String strLE :=
  ⟨fun a b c => charListLE_trans a.data b.data c.data⟩

instance : IsTotal String strLE :=
  ⟨fun a b => charListLE_total a.data b.data⟩

instance : IsAntisymm String strLE := by
  constructor
  intro a b h1 h2
  have := charListLE_antisymm a.data b.data h1 h2
  cases a; cases b; exact congrArg String.mk this

theorem strLE_refl (a : String) : strLE a a := charListLE_refl a.data

/-- Order used by `groupby(["Date", "Year"]).sum()`, which sorts the group
keys lexicographically: first by the `Date` component, ties broken by the
`Year` string. -/
def keyLE (a b : Date × String) : Prop :=
  dateLT a.1 b.1 ∨ (a.1 = b.1 ∧ strLE a.2 b.2)

instance (a b : Date × String) : Decidable (keyLE a b) := by
  unfold keyLE; exact inferInstance

instance : IsTrans Date dateLT := by
  constructor
  intro a b c hab hbc
  unfold dateLT at *
  omega

instance : IsTrans Date dateLE := by
  constructor
  intro a b c hab hbc
  rcases hab with hab | rfl
  · rcases hbc with hbc | rfl
    · exact Or.inl (Trans.trans hab hbc)
    · exact Or.inl hab
  · exact hbc

instance : IsTotal Date dateLE := by
  constructor
  intro a b
  by_cases h : a = b
  · exact Or.inl (Or.inr h)
  · unfold dateLE dateLT
    rcases a with ⟨ay, am⟩
    rcases b with ⟨by_, bm⟩
    simp only [Date.mk.injEq] at h ⊢
    omega

instance : IsAntisymm Date dateLE := by
  constructor
  intro a b hab hba
  rcases hab with hab | rfl
  · rcases hba with hba | rfl
    · unfold dateLT at hab hba; omega
    · rfl
  · rfl

instance : IsTrans (Date × String) keyLE := by
  constructor
  intro a b c hab hbc
  rcases hab with hab | ⟨hab, sab⟩
  · rcases hbc with hbc | ⟨hbc, _⟩
    · exact Or.inl (Trans.trans hab hbc)
    · exact Or.inl (hbc ▸ hab)
  · rcases hbc with hbc | ⟨hbc, sbc⟩
    · exact Or.inl (hab ▸ hbc)
    · exact Or.inr ⟨hab.trans hbc, charListLE_trans _ _ _ sab sbc⟩

instance : IsTotal (Date × String) keyLE := by
  constructor
  intro a b
  by_cases h : a.1 = b.1
  · rcases charListLE_total a.2.data b.2.data with hs | hs
    · exact Or.inl (Or.inr ⟨h, hs⟩)
    · exact Or.inr (Or.inr ⟨h.symm, hs⟩)
  · have := (IsTotal.total (r := dateLE) a.1 b.1)
    unfold keyLE
    rcases this with hd | hd
    · rcases hd with hd | hd
      · exact Or.inl (Or.inl hd)
      · exact absurd hd h
    · rcases hd with hd | hd
      · exact Or.inr (Or.inl hd)
      · exact absurd hd.symm h

instance : IsAntisymm (Date × String) keyLE := by
  constructor
  intro a b hab hba
  rcases hab with hab | ⟨hab, sab⟩
  · rcases hba with hba | ⟨hba, _⟩
    · unfold dateLT at hab hba; omega
    · exact absurd (hba ▸ hab) (by unfold dateLT; omega)
  · rcases hba with hba | ⟨_, sba⟩
    · exact absurd (hab ▸ hba) (by unfold dateLT; omega)
    · exact Prod.ext hab (antisymm (r := strLE) sab sba)

/-! ### Regex extraction and month-year parsing (hepatitis pipeline) -/

/-- Numeric value of a decimal digit character. -/
def digitVal (c : Char) : Nat := c.toNat - 48

/-- Whether the string's characters start with the pattern
`\d\x7b2\x7d-\d\x7b4\x7d` (two digits, a hyphen, four digits); if so,
return that 7-character token.  The pattern has no quantifier choice, so a
match at a position is unique. -/
def matchAt : List Char → Option String
  | d1 :: d2 :: h :: y1 :: y2 :: y3 :: y4 :: _ =>
    if d1.isDigit && d2.isDigit && (h = '-') &&
       y1.isDigit && y2.isDigit && y3.isDigit && y4.isDigit then
      some ⟨[d1, d2, h, y1, y2, y3, y4]⟩
    else none
  | _ => none

/-- Leftmost match of the pattern, scanning positions left to right as
Python `re` does. -/
def findFirstMatch : List Char → Option String
  | [] => none
  | c :: rest =>
    match matchAt (c :: rest) with
    | some m => some m
    | none => findFirstMatch rest

/-- `df["refPeriod"].str.extract(r"(\d\x7b2\x7d-\d\x7b4\x7d)")` on one cell:
the first substring of the form two digits, hyphen, four digits, or `none`
(pandas `NaN`) when there is none. -/
def extractToken (s : String) : Option String := findFirstMatch s.data

/-- Smallest month representable by `pd.Timestamp` (its minimum is
1677-09-21, so the first representable first-of-month is 1677-10-01),
encoded as `year * 12 + month`. -/
def tsMinMonth : Nat := 1677 * 12 + 10

/-- Largest month representable by `pd.Timestamp` (its maximum is
2262-04-11), encoded as `year * 12 + month`. -/
def tsMaxMonth : Nat := 2262 * 12 + 4

/-- `pd.to_datetime(s, format="%m-%Y", errors="coerce")` on one cell.
The cells it receives are exactly the 7-character tokens produced by
`extractToken`; parsing succeeds iff the month is in `1..12` and the
resulting first-of-month date fits in `pd.Timestamp` bounds, otherwise the
coercion yields `NaT` (`none` here). -/
def parseMonthYear (s : String) : Option Date :=
  match s.data with
  | [m1, m2, h, y1, y2, y3, y4] =>
    if m1.isDigit && m2.isDigit && (h = '-') &&
       y1.isDigit && y2.isDigit && y3.isDigit && y4.isDigit then
      let m := 10 * digitVal m1 + digitVal m2
      let y := 1000 * digitVal y1 + 100 * digitVal y2 + 10 * digitVal y3 + digitVal y4
      if 1 ≤ m ∧ m ≤ 12 ∧ tsMinMonth ≤ y * 12 + m ∧ y * 12 + m ≤ tsMaxMonth then
        some ⟨y, m⟩
      else none
    else none
  | _ => none

/-! ### Hepatitis pipeline -/

/-- One raw row of the hepatitis CSV: free-text `refPeriod` and the
`Number of cases` column. -/
structure HepRow where
  refPeriod : String
  numCases : Int
deriving DecidableEq, Repr

/-- A retained hepatitis row after extraction, parsing, `dropna` and the
derived `Year` column (`df["Date"].dt.year.astype(str)`). -/
structure Tagged where
  date : Date
  yearStr : String
  numCases : Int
deriving DecidableEq, Repr

/-- The string label of a date's year, as `astype(str)` produces it. -/
def yearLabel (d : Date) : String := toString d.year

/-- Lines 107-116 of `app.py`: extract the token, parse it, drop rows whose
date is `NaT`, and tag each surviving row with its `Year` string. -/
def hepTagged (rows : List HepRow) : List Tagged :=
  rows.filterMap fun r =>
    ((extractToken r.refPeriod).bind parseMonthYear).map fun d =>
      ⟨d, yearLabel d, r.numCases⟩

/-- `groupby` + `sum` + `reset_index`: one output row per distinct key, keys
in sorted order, each carrying the sum of the values of the input rows
with that key. -/
def groupSum {K R : Type} [DecidableEq K] (key : R → K) (v : R → Int)
    (r : K → K → Prop) [DecidableRel r] (rows : List R) : List (K × Int) :=
  (List.insertionSort r ((rows.map key).dedup)).map fun k =>
    (k, ((rows.filter fun x => decide (key x = k)).map v).sum)

/-- Line 119: `df_hepatitis.groupby(["Date", "Year"])["Number of cases"].sum().reset_index()`. -/
def cases_over_time (rows : List HepRow) : List ((Date × String) × Int) :=
  groupSum (fun t => (t.date, t.yearStr)) (fun t => t.numCases) keyLE (hepTagged rows)

/-- Line 126: `sorted(cases_over_time["Year"].unique())`. -/
def years_available (rows : List HepRow) : List String :=
  List.insertionSort strLE (((cases_over_time rows).map fun b => b.1.2).dedup)

/-- Line 133: `cases_over_time[cases_over_time["Year"].isin(years_selected)]`. -/
def cases_filtered (rows : List HepRow) (sel : List String) :
    List ((Date × String) × Int) :=
  (cases_over_time rows).filter fun b => decide (b.1.2 ∈ sel)

/-- Line 145: `cases_filtered.groupby("Year")["Number of cases"].sum().reset_index()`. -/
def yearly_cases (rows : List HepRow) (sel : List String) : List (String × Int) :=
  groupSum (fun b => b.1.2) (fun b => b.2) strLE (cases_filtered rows sel)

/-- The aggregation C9 compares against: grouping the retained hepatitis
rows by `Date` alone (instead of by `(Date, Year)`), summing the case
counts. -/
def casesByDateAlone (rows : List HepRow) : List (Date × Int) :=
  groupSum (fun t => t.date) (fun t => t.numCases) dateLE (hepTagged rows)

/-- The bar-chart data handed to `px.bar`: either one bar per `(Date, Year)`
bucket (monthly view) or one bar per year (yearly view). -/
inductive HepFig where
  | monthly (bars : List ((Date × String) × Int))
  | yearly (bars : List (String × Int))
deriving DecidableEq, Repr

/-- Lines 144-163: the radio value selects which aggregation is plotted. -/
def renderHep (rows : List HepRow) (sel : List String) (aggregation : String) :
    HepFig :=
  if aggregation = "Yearly Totals" then .yearly (yearly_cases rows sel)
  else .monthly (cases_filtered rows sel)

/-! ### Debt pipeline -/

/-- One row of the debt CSV (the columns the script touches). -/
structure DebtRow where
  refPeriod : Int
  indicatorCode : String
  value : Int
deriving DecidableEq, Repr

/-- The fixed indicator code of line 43. -/
def INDICATOR : String := "DT.TDS.DPPG.CD"

/-- Ascending `refPeriod` order used by `sort_values("refPeriod")`. -/
def debtRowLE (a b : DebtRow) : Prop := a.refPeriod ≤ b.refPeriod

instance (a b : DebtRow) : Decidable (debtRowLE a b) := by
  unfold debtRowLE; exact inferInstance

instance : IsTrans DebtRow debtRowLE := by
  constructor
  intro a b c hab hbc
  exact le_trans hab hbc

instance : IsTotal DebtRow debtRowLE := by
  constructor
  intro a b
  exact le_total a.refPeriod b.refPeriod

/-- Line 43: `df_debt[df_debt["Indicator Code"] == "DT.TDS.DPPG.CD"]`. -/
def df_debt0 (rows : List DebtRow) : List DebtRow :=
  rows.filter fun r => decide (r.indicatorCode = INDICATOR)

/-- Line 46: `df_debt.sort_values("refPeriod")`. -/
def df_debt (rows : List DebtRow) : List DebtRow :=
  List.insertionSort debtRowLE (df_debt0 rows)

/-- Line 49: `int(df_debt["refPeriod"].min())`; `none` models the
`ValueError` raised by `int(nan)` on an empty frame. -/
def min_year? (rows : List DebtRow) : Option Int :=
  ((df_debt rows).map (·.refPeriod)).min?

/-- Line 50: `int(df_debt["refPeriod"].max())`. -/
def max_year? (rows : List DebtRow) : Option Int :=
  ((df_debt rows).map (·.refPeriod)).max?

/-- The year-range slider of lines 52-57: its bounds and its default value. -/
structure SliderConfig where
  lo : Int
  hi : Int
  dflt : Int × Int
deriving DecidableEq, Repr

/-- Lines 49-57: the slider is built from `min_year`/`max_year` with default
`(1970, max_year)`; if either bound computation fails, the script aborts
before any debt chart is rendered.  `st.slider` also validates its default
value: when a component of `(1970, max_year)` lies outside
`[min_year, max_year]` — that is, unless `min_year ≤ 1970 ≤ max_year` — it
raises `StreamlitAPIException`, which likewise aborts the script with no
control built. -/
def slider? (rows : List DebtRow) : Option SliderConfig :=
  match min_year? rows, max_year? rows with
  | some m, some M =>
    if m ≤ 1970 ∧ 1970 ≤ M then some ⟨m, M, (1970, M)⟩ else none
  | _, _ => none

/-- Lines 59-62: retain the sorted rows whose `refPeriod` lies in the
user-chosen closed interval. -/
def df_debt_filtered (rows : List DebtRow) (lo hi : Int) : List DebtRow :=
  (df_debt rows).filter fun r => decide (lo ≤ r.refPeriod ∧ r.refPeriod ≤ hi)

/-- The debt line-chart data: produced only when the slider bounds were
computed, i.e. when the script did not abort at line 49. -/
def debt_chart? (rows : List DebtRow) (lo hi : Int) : Option (List DebtRow) :=
  (slider? rows).map fun _ => df_debt_filtered rows lo hi

/-! ### One full run of the script -/

/-- The user-adjustable controls: the slider interval, the year
multi-select, and the radio value. -/
structure Controls where
  yearRange : Int × Int
  yearsSelected : List String
  aggregation : String
deriving DecidableEq, Repr

/-- Everything the script draws that depends on data. -/
structure Outputs where
  debtFig : Option (List DebtRow)
  hepFig : HepFig
deriving DecidableEq, Repr

/-- One top-to-bottom execution of the script for fixed fetched datasets and
fixed control values. -/
def run (debtRows : List DebtRow) (hepRows : List HepRow) (c : Controls) :
    Outputs :=
  ⟨debt_chart? debtRows c.yearRange.1 c.yearRange.2,
   renderHep hepRows c.yearsSelected c.aggregation⟩

/-! ### Generic facts about `groupSum` -/

/-- Summing over a filter by a disjunction of disjoint predicates splits. -/
theorem sum_filter_or {R : Type} (v : R → Int) (p q : R → Bool)
    (hdisj : ∀ x, ¬(p x = true ∧ q x = true)) :
    ∀ rows : List R,
      ((rows.filter fun x => p x || q x).map v).sum
        = ((rows.filter p).map v).sum + ((rows.filter q).map v).sum
  | [] => by simp
  | a :: l => by
    have ih := sum_filter_or v p q hdisj l
    cases hp : p a <;> cases hq : q a
    · simp [List.filter_cons, hp, hq, ih]
    · simp [List.filter_cons, hp, hq, ih]; ring
    · simp [List.filter_cons, hp, hq, ih]; ring
    · exact absurd ⟨hp, hq⟩ (hdisj a)

/-- Adding up the per-key sums over a duplicate-free list of keys equals the
sum over the rows whose key belongs to that list. -/
theorem sum_over_keys {K R : Type} [DecidableEq K] (key : R → K) (v : R → Int)
    (rows : List R) :
    ∀ keys : List K, keys.Nodup →
      ((keys.map fun k =>
          ((rows.filter fun x => decide (key x = k)).map v).sum).sum
        = ((rows.filter fun x => decide (key x ∈ keys)).map v).sum)
  | [], _ => by simp
  | k :: ks, hnd => by
    have hk : k ∉ ks := (List.nodup_cons.mp hnd).1
    have ih := sum_over_keys key v rows ks (List.nodup_cons.mp hnd).2
    have hdisj : ∀ x, ¬(decide (key x = k) = true ∧ decide (key x ∈ ks) = true) := by
      intro x ⟨h1, h2⟩
      exact hk ((of_decide_eq_true h1) ▸ of_decide_eq_true h2)
    have hsplit := sum_filter_or v (fun x => decide (key x = k))
      (fun x => decide (key x ∈ ks)) hdisj rows
    have hcongr : (rows.filter fun x => decide (key x ∈ k :: ks))
        = rows.filter fun x => decide (key x = k) || decide (key x ∈ ks) := by
      apply List.filter_congr
      intro a _
      simp [List.mem_cons]
    rw [List.map_cons, List.sum_cons, ih, hcongr, hsplit]

/-- The filtered total of a `groupSum`: summing the bucket values whose key
satisfies `P` recovers the sum of the underlying rows whose key satisfies
`P`. -/
theorem groupSum_filter_sum {K R : Type} [DecidableEq K] (key : R → K)
    (v : R → Int) (r : K → K → Prop) [DecidableRel r] (rows : List R)
    (P : K → Bool) :
    (((groupSum key v r rows).filter fun b => P b.1).map (·.2)).sum
      = ((rows.filter fun x => P (key x)).map v).sum := by
  unfold groupSum
  rw [List.filter_map, List.map_map]
  have hnd : (List.insertionSort r ((rows.map key).dedup)).Nodup :=
    (List.perm_insertionSort r _).nodup_iff.mpr (List.nodup_dedup _)
  have hmem : ∀ x ∈ rows, key x ∈ List.insertionSort r ((rows.map key).dedup) := by
    intro x hx
    rw [List.mem_insertionSort, List.mem_dedup]
    exact List.mem_map_of_mem key hx
  have hP : ((fun b : K × Int => P b.1) ∘ fun k =>
      (k, ((rows.filter fun x => decide (key x = k)).map v).sum)) = fun k => P k := by
    funext k; rfl
  rw [hP]
  have := sum_over_keys key v rows
    ((List.insertionSort r ((rows.map key).dedup)).filter fun k => P k)
    (hnd.filter _)
  have hcomp : List.map ((fun x : K × Int => x.2) ∘ fun k =>
        (k, ((rows.filter fun x => decide (key x = k)).map v).sum))
        ((List.insertionSort r ((rows.map key).dedup)).filter fun k => P k)
      = List.map (fun k => ((rows.filter fun x => decide (key x = k)).map v).sum)
        ((List.insertionSort r ((rows.map key).dedup)).filter fun k => P k) :=
    List.map_congr_left fun a _ => rfl
  rw [hcomp, this]
  apply congrArg
  apply congrArg
  apply List.filter_congr
  intro a ha
  by_cases hPa : P (key a) = true
  · simp [List.mem_filter, hPa, hmem a ha]
  · simp [List.mem_filter, hPa]

/-- Each bucket of a `groupSum` carries the sum of the values of the rows
with that bucket's key. -/
theorem groupSum_mem_val {K R : Type} [DecidableEq K] (key : R → K)
    (v : R → Int) (r : K → K → Prop) [DecidableRel r] (rows : List R)
    (p : K × Int) (hp : p ∈ groupSum key v r rows) :
    p.2 = ((rows.filter fun x => decide (key x = p.1)).map v).sum := by
  unfold groupSum at hp
  rcases List.mem_map.mp hp with ⟨k, _, rfl⟩
  rfl

/-- Each bucket key of a `groupSum` is the key of some input row. -/
theorem groupSum_mem_key {K R : Type} [DecidableEq K] (key : R → K)
    (v : R → Int) (r : K → K → Prop) [DecidableRel r] (rows : List R)
    (p : K × Int) (hp : p ∈ groupSum key v r rows) :
    p.1 ∈ rows.map key := by
  unfold groupSum at hp
  rcases List.mem_map.mp hp with ⟨k, hk, rfl⟩
  rw [List.mem_insertionSort, List.mem_dedup] at hk
  exact hk

/-! ### Claim theorems -/

/-- C1: for every debt dataset and every user-chosen pair `(lo, hi)` with
`min_year ≤ lo ≤ hi ≤ max_year`, the filtered debt view contains exactly
the indicator-matching rows whose `refPeriod` lies in `[lo, hi]`, and they
appear in ascending `refPeriod` order. -/
theorem debt_view_exact_range_sorted (rows : List DebtRow) (cfg : SliderConfig)
    (lo hi : Int) (_hcfg : slider? rows = some cfg)
    (_hlo : cfg.lo ≤ lo) (_hlohi : lo ≤ hi) (_hhi : hi ≤ cfg.hi) :
    List.Perm (df_debt_filtered rows lo hi)
        ((df_debt0 rows).filter fun r => decide (lo ≤ r.refPeriod ∧ r.refPeriod ≤ hi))
      ∧ List.Sorted debtRowLE (df_debt_filtered rows lo hi) :=
  ⟨(List.perm_insertionSort debtRowLE (df_debt0 rows)).filter _,
   List.Pairwise.filter _ (List.sorted_insertionSort debtRowLE (df_debt0 rows))⟩

/-- Witness for C1 at a concrete dataset and range. -/
theorem debt_view_exact_range_sorted_witness :
    slider? [⟨2000, "DT.TDS.DPPG.CD", 5⟩, ⟨1960, "DT.TDS.DPPG.CD", 2⟩]
        = some ⟨1960, 2000, (1970, 2000)⟩
    ∧ (List.Perm
        (df_debt_filtered [⟨2000, "DT.TDS.DPPG.CD", 5⟩, ⟨1960, "DT.TDS.DPPG.CD", 2⟩] 1960 1995)
        ((df_debt0 [⟨2000, "DT.TDS.DPPG.CD", 5⟩, ⟨1960, "DT.TDS.DPPG.CD", 2⟩]).filter
          fun r => decide (1960 ≤ r.refPeriod ∧ r.refPeriod ≤ 1995))
      ∧ List.Sorted debtRowLE
        (df_debt_filtered [⟨2000, "DT.TDS.DPPG.CD", 5⟩, ⟨1960, "DT.TDS.DPPG.CD", 2⟩] 1960 1995)) :=
  ⟨by decide,
   debt_view_exact_range_sorted _ ⟨1960, 2000, (1970, 2000)⟩ 1960 1995
     (by decide) (by decide) (by decide) (by decide)⟩

/-- C5: every row kept by the initial indicator filter carries indicator
code `DT.TDS.DPPG.CD`, and sorting and year-range filtering preserve this
invariant: no later operation of the debt pipeline reintroduces a row with
a different code. -/
theorem debt_indicator_invariant (rows : List DebtRow) (lo hi : Int) :
    (∀ r ∈ df_debt0 rows, r.indicatorCode = INDICATOR)
    ∧ (∀ r ∈ df_debt rows, r.indicatorCode = INDICATOR)
    ∧ (∀ r ∈ df_debt_filtered rows lo hi, r.indicatorCode = INDICATOR) := by
  refine ⟨?_, ?_, ?_⟩
  · intro r hr
    simp only [df_debt0, List.mem_filter] at hr
    exact of_decide_eq_true hr.2
  · intro r hr
    simp only [df_debt, List.mem_insertionSort, df_debt0, List.mem_filter] at hr
    exact of_decide_eq_true hr.2
  · intro r hr
    simp only [df_debt_filtered, List.mem_filter, df_debt, List.mem_insertionSort,
      df_debt0] at hr
    exact of_decide_eq_true hr.1.2

/-- Witness for C5: a concrete retained row of a concrete dataset. -/
theorem debt_indicator_invariant_witness :
    (⟨1990, "DT.TDS.DPPG.CD", 2⟩ : DebtRow)
        ∈ df_debt_filtered [⟨1990, "DT.TDS.DPPG.CD", 2⟩, ⟨1985, "OTHER", 7⟩] 1980 2000
    ∧ (⟨1990, "DT.TDS.DPPG.CD", 2⟩ : DebtRow).indicatorCode = INDICATOR :=
  ⟨by decide,
   (debt_indicator_invariant [⟨1990, "DT.TDS.DPPG.CD", 2⟩, ⟨1985, "OTHER", 7⟩] 1980 2000).2.2
     _ (by decide)⟩

/-- C6: when the indicator code matches zero rows, the `min`/`max`
computations of lines 49-50 fail (`int(nan)` raises), the slider is never
built, and no debt chart is produced. -/
theorem debt_empty_indicator_fatal (rows : List DebtRow) (lo hi : Int)
    (h : df_debt0 rows = []) :
    min_year? rows = none ∧ max_year? rows = none
    ∧ slider? rows = none ∧ debt_chart? rows lo hi = none := by
  have hsorted : df_debt rows = [] := by
    unfold df_debt; rw [h]; rfl
  have h1 : min_year? rows = none := by unfold min_year?; rw [hsorted]; rfl
  have h2 : max_year? rows = none := by unfold max_year?; rw [hsorted]; rfl
  have h3 : slider? rows = none := by unfold slider?; rw [h1, h2]
  exact ⟨h1, h2, h3, by unfold debt_chart?; rw [h3]; rfl⟩

/-- Witness for C6: a dataset none of whose rows match the indicator. -/
theorem debt_empty_indicator_fatal_witness :
    df_debt0 [⟨1990, "OTHER", 1⟩] = []
    ∧ (min_year? [⟨1990, "OTHER", 1⟩] = none
      ∧ max_year? [⟨1990, "OTHER", 1⟩] = none
      ∧ slider? [⟨1990, "OTHER", 1⟩] = none
      ∧ debt_chart? [⟨1990, "OTHER", 1⟩] 1970 2022 = none) :=
  ⟨by decide, debt_empty_indicator_fatal [⟨1990, "OTHER", 1⟩] 1970 2022 (by decide)⟩

/-- C8 counterexample: on a dataset whose minimum year is 1990 the bounds
are computed, yet no slider is offered at all — `st.slider` rejects the
default `(1970, 2000)` as below `min_value` — refuting the claim that a
control with default `(1970, max_year)` is offered regardless of the
data's minimum year. -/
theorem slider_default_out_of_range :
    min_year? [⟨1990, "DT.TDS.DPPG.CD", 2⟩, ⟨2000, "DT.TDS.DPPG.CD", 5⟩] = some 1990
    ∧ max_year? [⟨1990, "DT.TDS.DPPG.CD", 2⟩, ⟨2000, "DT.TDS.DPPG.CD", 5⟩] = some 2000
    ∧ slider? [⟨1990, "DT.TDS.DPPG.CD", 2⟩, ⟨2000, "DT.TDS.DPPG.CD", 5⟩] = none := by
  decide

/-- C8 (amended): the year-range control's bounds are the min and max of
the filtered data; when `min_year ≤ 1970 ≤ max_year` it is offered with
default `(1970, max_year)` regardless of the exact minimum, and otherwise
`st.slider` rejects the out-of-range default and no control is offered. -/
theorem slider_bounds_and_default (rows : List DebtRow) (m M : Int)
    (hm : min_year? rows = some m) (hM : max_year? rows = some M) :
    ((m ≤ 1970 ∧ 1970 ≤ M) → slider? rows = some ⟨m, M, (1970, M)⟩)
    ∧ (¬(m ≤ 1970 ∧ 1970 ≤ M) → slider? rows = none) := by
  unfold slider?
  rw [hm, hM]
  constructor <;> intro h <;> simp [h]

/-- Witness for C8 on a dataset with minimum year 1960 and maximum 2000:
the control is offered with default `(1970, 2000)`. -/
theorem slider_bounds_and_default_witness :
    min_year? [⟨1960, "DT.TDS.DPPG.CD", 2⟩, ⟨2000, "DT.TDS.DPPG.CD", 5⟩] = some 1960
    ∧ max_year? [⟨1960, "DT.TDS.DPPG.CD", 2⟩, ⟨2000, "DT.TDS.DPPG.CD", 5⟩] = some 2000
    ∧ slider? [⟨1960, "DT.TDS.DPPG.CD", 2⟩, ⟨2000, "DT.TDS.DPPG.CD", 5⟩]
        = some ⟨1960, 2000, (1970, 2000)⟩ :=
  ⟨by decide, by decide,
   (slider_bounds_and_default _ 1960 2000 (by decide) (by decide)).1 (by decide)⟩

/-- C10: both pipelines are deterministic — for equal fetched datasets and
equal control settings, two runs of the script produce identical outputs. -/
theorem run_deterministic (d1 d2 : List DebtRow) (h1 h2 : List HepRow)
    (c1 c2 : Controls) (hd : d1 = d2) (hh : h1 = h2) (hc : c1 = c2) :
    run d1 h1 c1 = run d2 h2 c2 := by
  rw [hd, hh, hc]

/-- Witness for C10 at concrete datasets and controls. -/
theorem run_deterministic_witness :
    run [⟨1990, "DT.TDS.DPPG.CD", 2⟩] [⟨"01-2015", 10⟩]
        ⟨(1970, 2022), ["2015"], "Monthly Cases"⟩
      = run [⟨1990, "DT.TDS.DPPG.CD", 2⟩] [⟨"01-2015", 10⟩]
        ⟨(1970, 2022), ["2015"], "Monthly Cases"⟩ :=
  run_deterministic _ _ _ _ _ _ rfl rfl rfl

/-- C4: selecting the empty set of years empties the filtered bucket set,
and both the monthly and the yearly view are empty charts (the pipeline
still returns a figure; nothing is raised). -/
theorem hep_empty_selection (rows : List HepRow) (agg : String) :
    cases_filtered rows [] = []
    ∧ yearly_cases rows [] = []
    ∧ renderHep rows [] agg
        = (if agg = "Yearly Totals" then HepFig.yearly [] else HepFig.monthly []) := by
  have h1 : cases_filtered rows [] = [] := by
    unfold cases_filtered
    simp
  have h2 : yearly_cases rows [] = [] := by
    unfold yearly_cases
    rw [h1]
    rfl
  refine ⟨h1, h2, ?_⟩
  unfold renderHep
  by_cases hagg : agg = "Yearly Totals" <;> simp [hagg, h1, h2]

/-- C3: a hepatitis row whose `refPeriod` contains no two-digit/hyphen/
four-digit token, or whose first such token fails month-year parsing, is
absent from the `(Date, Year)` buckets, from the year-filtered view and
from the yearly re-aggregation: removing it changes none of them. -/
theorem hep_unparseable_row_excluded (l1 l2 : List HepRow) (r : HepRow)
    (sel : List String)
    (h : (extractToken r.refPeriod).bind parseMonthYear = none) :
    hepTagged (l1 ++ r :: l2) = hepTagged (l1 ++ l2)
    ∧ cases_over_time (l1 ++ r :: l2) = cases_over_time (l1 ++ l2)
    ∧ cases_filtered (l1 ++ r :: l2) sel = cases_filtered (l1 ++ l2) sel
    ∧ yearly_cases (l1 ++ r :: l2) sel = yearly_cases (l1 ++ l2) sel := by
  have h0 : hepTagged (l1 ++ r :: l2) = hepTagged (l1 ++ l2) := by
    have hf : ((extractToken r.refPeriod).bind parseMonthYear).map
        (fun d => (⟨d, yearLabel d, r.numCases⟩ : Tagged)) = none := by
      rw [h]; rfl
    unfold hepTagged
    rw [List.filterMap_append, List.filterMap_append, List.filterMap_cons, hf]
  have h1 : cases_over_time (l1 ++ r :: l2) = cases_over_time (l1 ++ l2) := by
    unfold cases_over_time
    rw [h0]
  have h2 : cases_filtered (l1 ++ r :: l2) sel = cases_filtered (l1 ++ l2) sel := by
    unfold cases_filtered
    rw [h1]
  refine ⟨h0, h1, h2, ?_⟩
  unfold yearly_cases
  rw [h2]

/-- Witness for C3: `"13-2015"` matches the digit pattern but fails
month-year parsing, and dropping that row changes no aggregate. -/
theorem hep_unparseable_row_excluded_witness :
    (extractToken "13-2015").bind parseMonthYear = none
    ∧ (hepTagged ([⟨"01-2015", 10⟩] ++ ⟨"13-2015", 5⟩ :: [])
          = hepTagged ([⟨"01-2015", 10⟩] ++ [])
      ∧ cases_over_time ([⟨"01-2015", 10⟩] ++ ⟨"13-2015", 5⟩ :: [])
          = cases_over_time ([⟨"01-2015", 10⟩] ++ [])
      ∧ cases_filtered ([⟨"01-2015", 10⟩] ++ ⟨"13-2015", 5⟩ :: []) ["2015"]
          = cases_filtered ([⟨"01-2015", 10⟩] ++ []) ["2015"]
      ∧ yearly_cases ([⟨"01-2015", 10⟩] ++ ⟨"13-2015", 5⟩ :: []) ["2015"]
          = yearly_cases ([⟨"01-2015", 10⟩] ++ []) ["2015"]) :=
  ⟨by decide,
   hep_unparseable_row_excluded [⟨"01-2015", 10⟩] [] ⟨"13-2015", 5⟩ ["2015"] (by decide)⟩

/-- C2: every bar of the yearly view equals the sum of the monthly bucket
totals of its year in the filtered monthly view, and equally the sum of
the underlying retained rows of that year. -/
theorem hep_yearly_totals_consistent (rows : List HepRow) (sel : List String)
    (p : String × Int) (hp : p ∈ yearly_cases rows sel) :
    p.2 = (((cases_filtered rows sel).filter fun b => decide (b.1.2 = p.1)).map (·.2)).sum
    ∧ p.2 = (((hepTagged rows).filter fun t => decide (t.yearStr = p.1)).map
        (fun t => t.numCases)).sum := by
  have hval := groupSum_mem_val (fun b : (Date × String) × Int => b.1.2) (fun b => b.2)
    strLE (cases_filtered rows sel) p hp
  refine ⟨hval, ?_⟩
  have hkey := groupSum_mem_key (fun b : (Date × String) × Int => b.1.2) (fun b => b.2)
    strLE (cases_filtered rows sel) p hp
  rcases List.mem_map.mp hkey with ⟨b, hb, hbk⟩
  have hbsel : decide (b.1.2 ∈ sel) = true := by
    unfold cases_filtered at hb
    exact (List.mem_filter.mp hb).2
  have hsel : p.1 ∈ sel := hbk ▸ of_decide_eq_true hbsel
  have hff : ((cases_filtered rows sel).filter fun b => decide (b.1.2 = p.1))
      = (cases_over_time rows).filter fun b => decide (b.1.2 = p.1) := by
    unfold cases_filtered
    rw [List.filter_filter]
    apply List.filter_congr
    intro a _
    by_cases hay : a.1.2 = p.1
    · simp [hay, hsel]
    · simp [hay]
  have hmain := groupSum_filter_sum (fun t : Tagged => (t.date, t.yearStr))
    (fun t => t.numCases) keyLE (hepTagged rows) (fun k => decide (k.2 = p.1))
  rw [hval, hff]
  exact hmain

/-- Witness for C2 at a concrete dataset: the 2015 bar sums the two 2015
monthly buckets and the two underlying 2015 rows. -/
theorem hep_yearly_totals_consistent_witness :
    ("2015", (13 : Int)) ∈
        yearly_cases [⟨"01-2015", 10⟩, ⟨"05-2015", 3⟩, ⟨"02-2016", 7⟩] ["2015", "2016"]
    ∧ ((("2015", (13 : Int)).2 =
        (((cases_filtered [⟨"01-2015", 10⟩, ⟨"05-2015", 3⟩, ⟨"02-2016", 7⟩] ["2015", "2016"]).filter
          fun b => decide (b.1.2 = ("2015", (13 : Int)).1)).map (·.2)).sum)
      ∧ ("2015", (13 : Int)).2 =
        (((hepTagged [⟨"01-2015", 10⟩, ⟨"05-2015", 3⟩, ⟨"02-2016", 7⟩]).filter
          fun t => decide (t.yearStr = ("2015", (13 : Int)).1)).map
            (fun t => t.numCases)).sum) :=
  ⟨by
    rw [show yearly_cases [⟨"01-2015", 10⟩, ⟨"05-2015", 3⟩, ⟨"02-2016", 7⟩]
        ["2015", "2016"] = [("2015", 13), ("2016", 7)] from by decide]
    exact List.mem_cons_self _ _,
   hep_yearly_totals_consistent [⟨"01-2015", 10⟩, ⟨"05-2015", 3⟩, ⟨"02-2016", 7⟩]
     ["2015", "2016"] ("2015", 13)
     (by
      rw [show yearly_cases [⟨"01-2015", 10⟩, ⟨"05-2015", 3⟩, ⟨"02-2016", 7⟩]
          ["2015", "2016"] = [("2015", 13), ("2016", 7)] from by decide]
      exact List.mem_cons_self _ _)⟩

/-- C7: with input rows `("01-2015", 10)` and `("13-2015", 5)`, only the
first survives (the second matches the digit pattern but month 13 fails
parsing), so the `2015` yearly total is 10. -/
theorem hep_example_month_13 :
    extractToken "13-2015" = some "13-2015"
    ∧ parseMonthYear "13-2015" = none
    ∧ hepTagged [⟨"01-2015", 10⟩, ⟨"13-2015", 5⟩] = [⟨⟨2015, 1⟩, "2015", 10⟩]
    ∧ cases_over_time [⟨"01-2015", 10⟩, ⟨"13-2015", 5⟩]
        = [((⟨2015, 1⟩, "2015"), 10)]
    ∧ yearly_cases [⟨"01-2015", 10⟩, ⟨"13-2015", 5⟩]
        (years_available [⟨"01-2015", 10⟩, ⟨"13-2015", 5⟩])
        = [("2015", 10)] := by
  decide

/-- Every retained hepatitis row's `Year` string is derived from its
parsed date. -/
theorem hepTagged_yearStr (rows : List HepRow) :
    ∀ t ∈ hepTagged rows, t.yearStr = yearLabel t.date := by
  intro t ht
  unfold hepTagged at ht
  rcases List.mem_filterMap.mp ht with ⟨a, _, hfa⟩
  rcases Option.map_eq_some'.mp hfa with ⟨d, _, hdt⟩
  rw [← hdt]

/-- `dedup` commutes with mapping an injective function. -/
theorem dedup_map_of_injective {α β : Type} [DecidableEq α] [DecidableEq β]
    (g : α → β) (hg : Function.Injective g) :
    ∀ l : List α, (l.map g).dedup = l.dedup.map g
  | [] => by simp
  | a :: l => by
    have ih := dedup_map_of_injective g hg l
    by_cases ha : a ∈ l
    · rw [List.map_cons, List.dedup_cons_of_mem (List.mem_map_of_mem g ha),
        List.dedup_cons_of_mem ha, ih]
    · have hga : g a ∉ l.map g := by
        intro hmem
        rcases List.mem_map.mp hmem with ⟨x, hx, hgx⟩
        exact ha (hg hgx ▸ hx)
      rw [List.map_cons, List.dedup_cons_of_not_mem hga,
        List.dedup_cons_of_not_mem ha, List.map_cons, ih]

/-- Sorting date-year pairs whose year is derived from the date is the same
as sorting the dates and re-attaching the year label. -/
theorem insertionSort_map_pair (l : List Date) :
    List.insertionSort keyLE (l.map fun d => (d, yearLabel d))
      = (List.insertionSort dateLE l).map fun d => (d, yearLabel d) := by
  apply List.eq_of_perm_of_sorted (r := keyLE)
  · exact (List.perm_insertionSort keyLE _).trans
      (((List.perm_insertionSort dateLE l).map _).symm)
  · exact List.sorted_insertionSort keyLE _
  · have hs := List.sorted_insertionSort dateLE l
    exact List.pairwise_map.mpr (List.Pairwise.imp (fun hab => by
      rcases hab with hab | rfl
      · exact Or.inl hab
      · exact Or.inr ⟨rfl, strLE_refl _⟩) hs)

/-- C9: in every `(Date, Year)` bucket the `Year` string is the year
component of the `Date`, and grouping by `(Date, Year)` yields the same
buckets with the same summed counts as grouping by `Date` alone. -/
theorem hep_year_determined_by_date (rows : List HepRow) :
    (∀ b ∈ cases_over_time rows, b.1.2 = yearLabel b.1.1)
    ∧ cases_over_time rows
        = (casesByDateAlone rows).map fun q => ((q.1, yearLabel q.1), q.2) := by
  have hinv := hepTagged_yearStr rows
  have hg : Function.Injective fun d : Date => (d, yearLabel d) := by
    intro a b h
    exact congrArg Prod.fst h
  have hA : (hepTagged rows).map (fun t => (t.date, t.yearStr))
      = ((hepTagged rows).map (fun t => t.date)).map (fun d => (d, yearLabel d)) := by
    rw [List.map_map]
    apply List.map_congr_left
    intro t ht
    simp only [Function.comp]
    rw [hinv t ht]
  have hC : List.insertionSort keyLE
        (((hepTagged rows).map fun t => (t.date, t.yearStr)).dedup)
      = (List.insertionSort dateLE
          (((hepTagged rows).map fun t => t.date).dedup)).map
          (fun d => (d, yearLabel d)) := by
    rw [hA, dedup_map_of_injective _ hg, insertionSort_map_pair]
  have heq : cases_over_time rows
      = (casesByDateAlone rows).map fun q => ((q.1, yearLabel q.1), q.2) := by
    unfold cases_over_time casesByDateAlone groupSum
    rw [hC, List.map_map, List.map_map]
    apply List.map_congr_left
    intro d _
    simp only [Function.comp]
    refine Prod.ext rfl ?_
    have hfe : (hepTagged rows).filter
          (fun t => decide ((t.date, t.yearStr) = (d, yearLabel d)))
        = (hepTagged rows).filter (fun t => decide (t.date = d)) := by
      apply List.filter_congr
      intro t ht
      have hy := hinv t ht
      by_cases hd : t.date = d
      · simp [Prod.ext_iff, hd, hy]
      · simp [Prod.ext_iff, hd]
    rw [hfe]
  refine ⟨?_, heq⟩
  intro b hb
  rw [heq] at hb
  rcases List.mem_map.mp hb with ⟨q, _, rfl⟩
  rfl

/-- Witness for C9: a concrete bucket of a concrete dataset whose `Year`
string is its date's year. -/
theorem hep_year_determined_by_date_witness :
    (((⟨2015, 1⟩ : Date), "2015"), (10 : Int)) ∈ cases_over_time [⟨"01-2015", 10⟩]
    ∧ (((⟨2015, 1⟩ : Date), "2015"), (10 : Int)).1.2
        = yearLabel (((⟨2015, 1⟩ : Date), "2015"), (10 : Int)).1.1 :=
  ⟨by
    rw [show cases_over_time [⟨"01-2015", 10⟩] = [(((⟨2015, 1⟩ : Date), "2015"), 10)] from by decide]
    exact List.mem_cons_self _ _,
   (hep_year_determined_by_date [⟨"01-2015", 10⟩]).1 (((⟨2015, 1⟩ : Date), "2015"), 10)
    (by
      rw [show cases_over_time [⟨"01-2015", 10⟩] = [(((⟨2015, 1⟩ : Date), "2015"), 10)] from by decide]
      exact List.mem_cons_self _ _)⟩

end Dashboard
